import Mathlib

/-!
Verification of the vehicle-intel lookup orchestration layer (src/index.ts).

The source is a set of HTTP entrypoint handlers over the NHTSA upstream
services.  We shallowly embed the pure orchestration logic: upstream calls
become oracle functions from the request parameters to an `Upstream` response
(a success flag, an HTTP status and a parsed JSON body), `fetchJSON`'s
throw-on-non-success becomes `Except`, JavaScript `try/catch` becomes a match
on the `Except`, and JavaScript objects with possibly-missing string fields
become `Option String` (a JS template literal renders a missing field as
"undefined", embedded by `jsStr`).  Timestamp fields (`fetchedAt`,
`comparedAt`) are wall-clock effects and are omitted from the embedded
outputs.
-/

namespace VehicleIntel

/-- One entry of the upstream decode attribute list: `{Variable, Value}`.
`Value` is `none` when the upstream JSON has `null`/missing there. -/
structure RawItem where
  Variable : String
  Value : Option String
deriving DecidableEq, Repr

/-- JavaScript truthiness of a possibly-missing string value:
`undefined`/`null` and the empty string are falsy. -/
def truthy : Option String → Bool
  | some s => s ≠ ""
  | none => false

/-- The filter condition of `cleanVinResults`:
`item.Value && item.Value !== '' && item.Value !== 'Not Applicable'`. -/
def goodValue (v : Option String) : Bool :=
  truthy v && v ≠ some "" && v ≠ some "Not Applicable"

/-- One iteration of the `for` loop in `cleanVinResults`:
assign `cleaned[item.Variable] = item.Value` when the value passes the
filter, else leave the record unchanged. -/
def cleanStep (cleaned : String → Option String) (item : RawItem) :
    String → Option String :=
  if goodValue item.Value then
    fun k => if k = item.Variable then item.Value else cleaned k
  else cleaned

/-- Embedding of `cleanVinResults`: fold the loop body over the attribute
list, starting from the empty record `{}`. -/
def cleanVinResults (results : List RawItem) : String → Option String :=
  results.foldl cleanStep (fun _ => none)

/-- Predicate picking out the pairs that yield an entry for key `k`. -/
def goodFor (k : String) (it : RawItem) : Bool :=
  it.Variable == k && goodValue it.Value

/-- Modelled from the spec sentence for the normalizer: the value of the
LAST pair whose variable is `k` and whose value is neither empty nor the
"Not Applicable" sentinel (later pair wins), if any. -/
def lastGoodValue (results : List RawItem) (k : String) : Option String :=
  match results.reverse.find? (goodFor k) with
  | some it => it.Value
  | none => none

/-- Response of one upstream HTTP call: success flag (`response.ok`), HTTP
status code, and the parsed JSON body. -/
structure Upstream (α : Type) where
  ok : Bool
  status : Nat
  body : α
deriving DecidableEq, Repr

/-- Embedding of `fetchJSON`: returns the parsed body on success, throws
`NHTSA API error: {status}` on a non-success response. -/
def fetchJSON {α : Type} (r : Upstream α) : Except String α :=
  if r.ok then
    Except.ok r.body
  else
    let st := r.status
    Except.error s!"NHTSA API error: {st}"

/-- Body of a decode-VIN upstream response: `{ Results: [...] }`. -/
structure DecodeBody where
  Results : List RawItem
deriving DecidableEq, Repr

/-- One raw row of an upstream recall response. -/
structure RecallRow where
  NHTSACampaignNumber : Option String
  Component : Option String
  Summary : Option String
  Consequence : Option String
  Remedy : Option String
  Manufacturer : Option String
deriving DecidableEq, Repr

/-- Body of a recall upstream response: `{ results: [...] }`, where the
`results` key may be absent (`recallData.results || []`). -/
structure RecallBody where
  results : Option (List RecallRow)
deriving DecidableEq, Repr

/-- The make/model/modelYear query string parameters of the
recall-by-vehicle endpoint used by the recalls-by-vin handler. -/
structure RecallQuery where
  make : String
  model : String
  modelYear : String
deriving DecidableEq, Repr

/-- Normalized recall entry produced by the recalls-by-vin handler. -/
structure RecallRecord where
  campaignNumber : Option String
  component : Option String
  summary : Option String
  consequence : Option String
  remedy : Option String
  manufacturer : Option String
deriving DecidableEq, Repr

/-- The per-row mapping inside `recalls.slice(0, 20).map(r => ...)`. -/
def normalizeRecall (r : RecallRow) : RecallRecord :=
  { campaignNumber := r.NHTSACampaignNumber
    component := r.Component
    summary := r.Summary
    consequence := r.Consequence
    remedy := r.Remedy
    manufacturer := r.Manufacturer }

/-- Rendering of a possibly-missing string in a JS template literal:
`undefined` prints as the string "undefined". -/
def jsStr : Option String → String
  | some s => s
  | none => "undefined"

/-- Embedding of `recalls.results?.length || 0`. -/
def jsLen {α : Type} : Option (List α) → Nat
  | some l => l.length
  | none => 0

/-- The `${year} ${make} ${model}` vehicle description template. -/
def vehicleString (yr mk md : String) : String :=
  s!"{yr} {mk} {md}"

/-- Output of the decode-vin handler, `vehicle` sub-object. -/
structure DecodedVehicle where
  make : Option String
  model : Option String
  year : Option String
  trim : Option String
  bodyClass : Option String
  vehicleType : Option String
  doors : Option String
deriving DecidableEq, Repr

/-- Output of the decode-vin handler, `engine` sub-object. -/
structure DecodedEngine where
  displacement : Option String
  cylinders : Option String
  fuelType : Option String
  horsepower : Option String
deriving DecidableEq, Repr

/-- Output of the decode-vin handler, `manufacturer` sub-object. -/
structure DecodedManufacturer where
  name : Option String
  plantCity : Option String
  plantCountry : Option String
deriving DecidableEq, Repr

/-- Output of the decode-vin handler, `safety` sub-object. -/
structure DecodedSafety where
  airbags : Option String
  abs : Option String
deriving DecidableEq, Repr

/-- Output of the decode-vin handler (`fetchedAt` omitted). -/
structure DecodeVinOutput where
  vin : String
  isValid : Bool
  errorMessage : Option String
  vehicle : DecodedVehicle
  engine : DecodedEngine
  manufacturer : DecodedManufacturer
  safety : DecodedSafety
deriving DecidableEq, Repr

/-- Embedding of the decode-vin handler.  `decodeApi` is the upstream
decode endpoint, keyed by the VIN path parameter the handler puts in the
URL. -/
def decodeVin (vin : String) (decodeApi : String → Upstream DecodeBody) :
    Except String DecodeVinOutput :=
  let v := vin.toUpper
  match fetchJSON (decodeApi v) with
  | Except.error e => Except.error e
  | Except.ok data =>
    let specs := cleanVinResults data.Results
    Except.ok
      { vin := v
        isValid := specs "Error Code" == some "0"
        errorMessage := specs "Error Text"
        vehicle :=
          { make := specs "Make"
            model := specs "Model"
            year := specs "Model Year"
            trim := specs "Trim"
            bodyClass := specs "Body Class"
            vehicleType := specs "Vehicle Type"
            doors := specs "Doors" }
        engine :=
          { displacement := specs "Displacement (L)"
            cylinders := specs "Engine Number of Cylinders"
            fuelType := specs "Fuel Type - Primary"
            horsepower := specs "Engine Brake (hp) From" }
        manufacturer :=
          { name := specs "Manufacturer Name"
            plantCity := specs "Plant City"
            plantCountry := specs "Plant Country" }
        safety :=
          { airbags := specs "Air Bag Loc Front"
            abs := specs "Brake System Type" } }

/-- Output of the recalls-by-vin handler (`fetchedAt` omitted).  The
handler's two return shapes are merged: the short-circuit shape carries
`error = some msg` and `vehicle = none`, the success shape carries
`error = none` and `vehicle = some description`. -/
structure RecallsByVinOutput where
  vin : String
  error : Option String
  vehicle : Option String
  recallCount : Nat
  recalls : List RecallRecord
deriving DecidableEq, Repr

/-- Embedding of the recalls-by-vin handler.  Phase 1 decodes the VIN
(`fetchJSON`, so a transport failure propagates); if make, model or model
year is missing the handler short-circuits with a zero-result record;
otherwise phase 2 queries the recall endpoint with lower-cased make/model
(plain `fetch`: a non-success response degrades to an empty list). -/
def recallsByVin (vin : String) (decodeApi : String → Upstream DecodeBody)
    (recallApi : RecallQuery → Upstream RecallBody) :
    Except String RecallsByVinOutput :=
  let v := vin.toUpper
  match fetchJSON (decodeApi v) with
  | Except.error e => Except.error e
  | Except.ok decoded =>
    let specs := cleanVinResults decoded.Results
    if truthy (specs "Make") && truthy (specs "Model") &&
        truthy (specs "Model Year") then
      let mk := (specs "Make").getD ""
      let md := (specs "Model").getD ""
      let yr := (specs "Model Year").getD ""
      let recallResponse :=
        recallApi { make := mk.toLower, model := md.toLower, modelYear := yr }
      let recalls :=
        if recallResponse.ok then recallResponse.body.results.getD [] else []
      Except.ok
        { vin := v
          error := none
          vehicle := some (vehicleString yr mk md)
          recallCount := recalls.length
          recalls := (recalls.take 20).map normalizeRecall }
    else
      Except.ok
        { vin := v
          error := some "Could not decode VIN to get vehicle details"
          vehicle := none
          recallCount := 0
          recalls := [] }

/-- Intermediate object of the models handler:
`{ make: r.Make_Name, model: r.Model_Name }`. -/
structure ModelPair where
  make : Option String
  model : Option String
deriving DecidableEq, Repr

/-- One raw row of the GetModelsForMake upstream response. -/
structure ModelRow where
  Make_Name : Option String
  Model_Name : Option String
deriving DecidableEq, Repr

/-- Body of a GetModelsForMake response: `{ Results: [...] }`, possibly
absent (`data.Results?.map(...) || []`). -/
structure ModelsBody where
  Results : Option (List ModelRow)
deriving DecidableEq, Repr

/-- Output of the models handler (`fetchedAt` omitted). -/
structure ModelsOutput where
  make : String
  modelCount : Nat
  models : List (Option String)
deriving DecidableEq, Repr

/-- Embedding of the models handler, keyed by the make path parameter. -/
def modelsForMake (make : String) (api : String → Upstream ModelsBody) :
    Except String ModelsOutput :=
  match fetchJSON (api make) with
  | Except.error e => Except.error e
  | Except.ok data =>
    let models := (data.Results.getD []).map
      (fun r => ModelPair.mk r.Make_Name r.Model_Name)
    Except.ok
      { make := make
        modelCount := models.length
        models := models.map ModelPair.model }

/-- One raw row of a complaints upstream response. -/
structure ComplaintRow where
  odiNumber : Option String
  components : Option String
  summary : Option String
  crash : Option String
  fire : Option String
  injuries : Option String
  dateOfIncident : Option String
deriving DecidableEq, Repr

/-- Body of a complaints response: `{ results: [...] }`, possibly absent. -/
structure ComplaintsBody where
  results : Option (List ComplaintRow)
deriving DecidableEq, Repr

/-- The make/model/modelYear query string parameters of the complaints
endpoint. -/
structure ComplaintsQuery where
  make : String
  model : String
  year : Int
deriving DecidableEq, Repr

/-- Normalized complaint entry produced by the complaints handler. -/
structure ComplaintRecord where
  id : Option String
  component : Option String
  summary : Option String
  crash : Option String
  fire : Option String
  injuries : Option String
  dateReceived : Option String
deriving DecidableEq, Repr

/-- The per-row mapping inside `complaints.slice(0, 20).map(c => ...)`;
`c.summary?.substring(0, 500)` keeps the first 500 characters. -/
def normalizeComplaint (c : ComplaintRow) : ComplaintRecord :=
  { id := c.odiNumber
    component := c.components
    summary := c.summary.map (fun s => s.take 500)
    crash := c.crash
    fire := c.fire
    injuries := c.injuries
    dateReceived := c.dateOfIncident }

/-- The `${year} ${make} ${model}` template of the complaints handler. -/
def complaintVehicleString (year : Int) (make model : String) : String :=
  s!"{year} {make} {model}"

/-- Output of the complaints handler (`fetchedAt` omitted). -/
structure ComplaintsOutput where
  vehicle : String
  complaintCount : Nat
  complaints : List ComplaintRecord
deriving DecidableEq, Repr

/-- Embedding of the complaints handler. -/
def complaintsByVehicle (make model : String) (year : Int)
    (api : ComplaintsQuery → Upstream ComplaintsBody) :
    Except String ComplaintsOutput :=
  match fetchJSON (api { make := make, model := model, year := year }) with
  | Except.error e => Except.error e
  | Except.ok data =>
    let complaints := data.results.getD []
    Except.ok
      { vehicle := complaintVehicleString year make model
        complaintCount := complaints.length
        complaints := (complaints.take 20).map normalizeComplaint }

/-- The `${...}L ${...}-cyl` engine template of the compare handler. -/
def engineString (specs : String → Option String) : String :=
  let disp := jsStr (specs "Displacement (L)")
  let cyl := jsStr (specs "Engine Number of Cylinders")
  s!"{disp}L {cyl}-cyl"

/-- One row of the compare handler's output. -/
structure CompareRow where
  vin : String
  year : Option String
  make : Option String
  model : Option String
  trim : Option String
  bodyClass : Option String
  engine : String
  fuelType : Option String
  manufacturer : Option String
  plantCountry : Option String
  recallCount : Nat
deriving DecidableEq, Repr

/-- Embedding of the per-subject pipeline inside the compare handler:
decode the upper-cased VIN (`fetchJSON`, a transport failure propagates),
then a `try/catch`-guarded auxiliary recall-count lookup by VIN (failure
leaves the count at 0). -/
def compareRow (decodeApi : String → Upstream DecodeBody)
    (recallVinApi : String → Upstream RecallBody) (vin : String) :
    Except String CompareRow :=
  let v := vin.toUpper
  match fetchJSON (decodeApi v) with
  | Except.error e => Except.error e
  | Except.ok decoded =>
    let specs := cleanVinResults decoded.Results
    let recallCount :=
      match fetchJSON (recallVinApi v) with
      | Except.ok recalls => jsLen recalls.results
      | Except.error _ => 0
    Except.ok
      { vin := v
        year := specs "Model Year"
        make := specs "Make"
        model := specs "Model"
        trim := specs "Trim"
        bodyClass := specs "Body Class"
        engine := engineString specs
        fuelType := specs "Fuel Type - Primary"
        manufacturer := specs "Manufacturer Name"
        plantCountry := specs "Plant Country"
        recallCount := recallCount }

/-- The row the per-subject pipeline yields when the subject's decode call
succeeds transport-wise (helper for stating theorems). -/
def compareRowPure (decodeApi : String → Upstream DecodeBody)
    (recallVinApi : String → Upstream RecallBody) (vin : String) :
    CompareRow :=
  let v := vin.toUpper
  let specs := cleanVinResults (decodeApi v).body.Results
  { vin := v
    year := specs "Model Year"
    make := specs "Make"
    model := specs "Model"
    trim := specs "Trim"
    bodyClass := specs "Body Class"
    engine := engineString specs
    fuelType := specs "Fuel Type - Primary"
    manufacturer := specs "Manufacturer Name"
    plantCountry := specs "Plant Country"
    recallCount :=
      if (recallVinApi v).ok then jsLen (recallVinApi v).body.results else 0 }

/-- Embedding of the compare handler: `Promise.all` over the per-subject
pipelines.  All pipelines run to completion independently; the aggregate
result is the rows in input order when every pipeline succeeds, and a
transport error as soon as any subject's decode fails. -/
def compareVins (vins : List String)
    (decodeApi : String → Upstream DecodeBody)
    (recallVinApi : String → Upstream RecallBody) :
    Except String (List CompareRow) :=
  match vins with
  | [] => Except.ok []
  | vin :: rest =>
    match compareRow decodeApi recallVinApi vin with
    | Except.error e => Except.error e
    | Except.ok row =>
      match compareVins rest decodeApi recallVinApi with
      | Except.error e => Except.error e
      | Except.ok rows => Except.ok (row :: rows)

/-- Phase-2 recall list of the recalls-by-vin handler: the upstream rows on
a success response (absent `results` defaulting to `[]`), the empty list on
a non-success response. -/
def phase2Recalls (recallApi : RecallQuery → Upstream RecallBody)
    (q : RecallQuery) : List RecallRow :=
  if (recallApi q).ok then (recallApi q).body.results.getD [] else []

/-- Concrete attribute list used to instantiate the theorems below. -/
def demoSpecs : List RawItem :=
  [⟨"Make", some "HONDA"⟩, ⟨"Model", some "ACCORD"⟩,
   ⟨"Model Year", some "2003"⟩, ⟨"Error Code", some "0"⟩,
   ⟨"Error Text", some "0 - VIN decoded clean"⟩,
   ⟨"Trim", some "Not Applicable"⟩, ⟨"Doors", some ""⟩,
   ⟨"Displacement (L)", none⟩]

/-- Concrete identification number used to instantiate the theorems. -/
def demoVin : String := "1HGCM82633A004352"

/-- A second concrete identification number. -/
def demoVin2 : String := "5YJ3E1EA7KF317000"

/-- Decode oracle that always succeeds with `demoSpecs`. -/
def demoDecodeApi : String → Upstream DecodeBody :=
  fun _ => ⟨true, 200, ⟨demoSpecs⟩⟩

/-- Decode oracle that succeeds transport-wise with an empty result list
(so the cleaned spec has no entries at all). -/
def emptyDecodeApi : String → Upstream DecodeBody :=
  fun _ => ⟨true, 200, ⟨[]⟩⟩

/-- Decode oracle that fails transport-wise. -/
def failDecodeApi : String → Upstream DecodeBody :=
  fun _ => ⟨false, 500, ⟨[]⟩⟩

/-- Twenty-one identical upstream recall rows (more than the cap). -/
def demoRecallRows : List RecallRow :=
  List.replicate 21
    ⟨some "23V123000", some "AIR BAGS", some "inflator may rupture",
     some "injury risk", some "replace inflator", some "Honda"⟩

/-- Recall-by-vehicle oracle that succeeds with `demoRecallRows`. -/
def demoRecallApi : RecallQuery → Upstream RecallBody :=
  fun _ => ⟨true, 200, ⟨some demoRecallRows⟩⟩

/-- Recall-by-vehicle oracle that fails transport-wise. -/
def failRecallApi : RecallQuery → Upstream RecallBody :=
  fun _ => ⟨false, 503, ⟨none⟩⟩

/-- Recall-by-VIN oracle (compare handler) that succeeds. -/
def demoRecallVinApi : String → Upstream RecallBody :=
  fun _ => ⟨true, 200, ⟨some demoRecallRows⟩⟩

/-- Recall-by-VIN oracle (compare handler) that fails transport-wise. -/
def failRecallVinApi : String → Upstream RecallBody :=
  fun _ => ⟨false, 503, ⟨none⟩⟩

/-- One concrete upstream complaint row with a 600-character summary. -/
def demoComplaintRow : ComplaintRow :=
  ⟨some "11412345", some "ENGINE", some (String.mk (List.replicate 600 'x')),
   some "false", some "false", some "0", some "2020-01-01"⟩

/-- Twenty-one identical complaint rows (more than the cap). -/
def demoComplaintRows : List ComplaintRow :=
  List.replicate 21 demoComplaintRow

/-- Complaints oracle that succeeds with `demoComplaintRows`. -/
def demoComplaintsApi : ComplaintsQuery → Upstream ComplaintsBody :=
  fun _ => ⟨true, 200, ⟨some demoComplaintRows⟩⟩

/-- Models oracle used to instantiate the theorems. -/
def demoModelsApi : String → Upstream ModelsBody :=
  fun _ => ⟨true, 200, ⟨some [⟨some "HONDA", some "Accord"⟩]⟩⟩

/-- Recall-by-vehicle oracle that agrees with `demoRecallApi` exactly at
the lower-cased demo query and fails everywhere else. -/
def demoRecallApiAlt : RecallQuery → Upstream RecallBody :=
  fun q =>
    if q = ⟨"honda", "accord", "2003"⟩ then ⟨true, 200, ⟨some demoRecallRows⟩⟩
    else ⟨false, 404, ⟨none⟩⟩

theorem foldl_cleanStep (l : List RawItem) (acc : String → Option String)
    (k : String) :
    (l.foldl cleanStep acc) k =
      match l.reverse.find? (goodFor k) with
      | some it => it.Value
      | none => acc k := by
  induction l generalizing acc with
  | nil => rfl
  | cons i t ih =>
    rw [List.foldl_cons, ih, List.reverse_cons, List.find?_append]
    cases hf : t.reverse.find? (goodFor k) with
    | some it => simp [Option.or]
    | none =>
      simp only [Option.or]
      show cleanStep acc i k = _
      unfold cleanStep goodFor
      by_cases hg : goodValue i.Value = true
      · by_cases hk : k = i.Variable
        · simp [hg, hk, List.find?]
        · have : (i.Variable == k) = false := by
            simp [beq_iff_eq]
            exact fun h => hk h.symm
          simp [hg, hk, List.find?, this]
      · have hg2 : goodValue i.Value = false := by
          cases h : goodValue i.Value
          · rfl
          · exact absurd h hg
        simp [hg2, List.find?]

theorem cleanVinResults_eq_lastGoodValue (l : List RawItem) (k : String) :
    cleanVinResults l k = lastGoodValue l k := by
  rw [cleanVinResults, foldl_cleanStep, lastGoodValue]

theorem cleanVinResults_some_good (l : List RawItem) (k : String)
    (v : String) (h : cleanVinResults l k = some v) :
    v ≠ "" ∧ v ≠ "Not Applicable" ∧
      ∃ it ∈ l, it.Variable = k ∧ it.Value = some v := by
  rw [cleanVinResults_eq_lastGoodValue, lastGoodValue] at h
  cases hf : l.reverse.find? (goodFor k) with
  | none => rw [hf] at h; exact absurd h (by simp)
  | some it =>
    rw [hf] at h
    have hv : it.Value = some v := h
    have hp := List.find?_some hf
    have hmem : it ∈ l := List.mem_reverse.mp (List.mem_of_find?_eq_some hf)
    unfold goodFor at hp
    simp only [Bool.and_eq_true, beq_iff_eq] at hp
    obtain ⟨hvar, hgood⟩ := hp
    rw [hv] at hgood
    unfold goodValue truthy at hgood
    simp only [Bool.and_eq_true, decide_eq_true_eq, ne_eq,
      Option.some.injEq] at hgood
    exact ⟨hgood.1.1, hgood.2, it, hmem, hvar, hv⟩

theorem cleanVinResults_isSome_iff (l : List RawItem) (k : String) :
    (cleanVinResults l k).isSome ↔
      ∃ it ∈ l, it.Variable = k ∧ goodValue it.Value = true := by
  rw [cleanVinResults_eq_lastGoodValue, lastGoodValue]
  cases hf : l.reverse.find? (goodFor k) with
  | none =>
    rw [List.find?_eq_none] at hf
    simp only [Option.isSome_none, Bool.false_eq_true, false_iff]
    rintro ⟨it, hmem, hvar, hgood⟩
    exact hf it (List.mem_reverse.mpr hmem) (by simp [goodFor, hvar, hgood])
  | some it =>
    have hp := List.find?_some hf
    have hmem : it ∈ l := List.mem_reverse.mp (List.mem_of_find?_eq_some hf)
    unfold goodFor at hp
    simp only [Bool.and_eq_true, beq_iff_eq] at hp
    obtain ⟨hvar, hgood⟩ := hp
    constructor
    · intro _; exact ⟨it, hmem, hvar, hgood⟩
    · intro _
      unfold goodValue truthy at hgood
      cases hv : it.Value with
      | none => rw [hv] at hgood; simp at hgood
      | some s => simp [hv]

theorem cleanVinResults_good_of_some (l : List RawItem) (k : String)
    (v : String) (h : cleanVinResults l k = some v) :
    goodValue (some v) = true := by
  obtain ⟨h1, h2, _⟩ := cleanVinResults_some_good l k v h
  simp [goodValue, truthy, h1, h2]

theorem truthy_cleanVinResults (l : List RawItem) (k : String)
    (v : String) (h : cleanVinResults l k = some v) :
    truthy (some v) = true := by
  have := cleanVinResults_good_of_some l k v h
  unfold goodValue at this
  simp only [Bool.and_eq_true] at this
  exact this.1.1

theorem goodValue_iff (v : Option String) :
    goodValue v = true ↔
      ∃ s, v = some s ∧ s ≠ "" ∧ s ≠ "Not Applicable" := by
  cases v with
  | none => simp [goodValue, truthy]
  | some s => simp [goodValue, truthy]

theorem fetchJSON_ok {α : Type} (r : Upstream α) (h : r.ok = true) :
    fetchJSON r = Except.ok r.body := by
  simp [fetchJSON, h]

theorem recallsByVin_phase2_eq (vin : String)
    (d : String → Upstream DecodeBody)
    (r : RecallQuery → Upstream RecallBody) (mk md yr : String)
    (hok : (d vin.toUpper).ok = true)
    (hmk : cleanVinResults (d vin.toUpper).body.Results "Make" = some mk)
    (hmd : cleanVinResults (d vin.toUpper).body.Results "Model" = some md)
    (hyr : cleanVinResults (d vin.toUpper).body.Results "Model Year"
      = some yr) :
    recallsByVin vin d r = Except.ok
      { vin := vin.toUpper
        error := none
        vehicle := some (vehicleString yr mk md)
        recallCount :=
          (phase2Recalls r ⟨mk.toLower, md.toLower, yr⟩).length
        recalls :=
          ((phase2Recalls r ⟨mk.toLower, md.toLower, yr⟩).take 20).map
            normalizeRecall } := by
  have htm := truthy_cleanVinResults _ _ _ hmk
  have htd := truthy_cleanVinResults _ _ _ hmd
  have hty := truthy_cleanVinResults _ _ _ hyr
  simp [recallsByVin, fetchJSON, hok, hmk, hmd, hyr, htm, htd, hty,
    phase2Recalls]

theorem recallsByVin_missing_eq (vin : String)
    (d : String → Upstream DecodeBody)
    (r : RecallQuery → Upstream RecallBody)
    (hok : (d vin.toUpper).ok = true)
    (hmiss :
      cleanVinResults (d vin.toUpper).body.Results "Make" = none ∨
      cleanVinResults (d vin.toUpper).body.Results "Model" = none ∨
      cleanVinResults (d vin.toUpper).body.Results "Model Year" = none) :
    recallsByVin vin d r = Except.ok
      { vin := vin.toUpper
        error := some "Could not decode VIN to get vehicle details"
        vehicle := none
        recallCount := 0
        recalls := [] } := by
  rcases hmiss with h | h | h <;>
    simp [recallsByVin, fetchJSON, hok, h, truthy]

theorem complaintsByVehicle_ok_eq (make model : String) (year : Int)
    (api : ComplaintsQuery → Upstream ComplaintsBody)
    (hok : (api ⟨make, model, year⟩).ok = true) :
    complaintsByVehicle make model year api = Except.ok
      { vehicle := complaintVehicleString year make model
        complaintCount :=
          ((api ⟨make, model, year⟩).body.results.getD []).length
        complaints :=
          (((api ⟨make, model, year⟩).body.results.getD []).take 20).map
            normalizeComplaint } := by
  simp [complaintsByVehicle, fetchJSON, hok]

theorem compareRow_ok_eq (d : String → Upstream DecodeBody)
    (r : String → Upstream RecallBody) (vin : String)
    (h : (d vin.toUpper).ok = true) :
    compareRow d r vin = Except.ok (compareRowPure d r vin) := by
  cases hr : (r vin.toUpper).ok <;>
    simp [compareRow, compareRowPure, fetchJSON, h, hr]

theorem compareRow_err (d : String → Upstream DecodeBody)
    (r : String → Upstream RecallBody) (vin : String)
    (h : (d vin.toUpper).ok = false) :
    ∃ e, compareRow d r vin = Except.error e := by
  simp only [compareRow, fetchJSON, h, Bool.false_eq_true, if_false]
  exact ⟨_, rfl⟩

theorem compareVins_all_ok (vins : List String)
    (d : String → Upstream DecodeBody) (r : String → Upstream RecallBody)
    (h : ∀ v ∈ vins, (d v.toUpper).ok = true) :
    compareVins vins d r = Except.ok (vins.map (compareRowPure d r)) := by
  induction vins with
  | nil => rfl
  | cons v t ih =>
    have hv : (d v.toUpper).ok = true := h v (List.mem_cons_self v t)
    have ht := ih (fun u hu => h u (List.mem_cons_of_mem v hu))
    rw [compareVins, compareRow_ok_eq d r v hv, ht, List.map_cons]

/-- C1: for every raw attribute list, `cleanVinResults` agrees with the
last-good-pair-wins specification `lastGoodValue`; a key is present iff
some input pair for it carries a non-empty string value different from
"Not Applicable"; and every emitted value is preserved verbatim from such
a pair (the last one winning on duplicate keys). -/
theorem c1_cleanVinResults_spec (l : List RawItem) (k : String) :
    cleanVinResults l k = lastGoodValue l k ∧
    ((cleanVinResults l k).isSome ↔
      ∃ it ∈ l, it.Variable = k ∧
        ∃ s, it.Value = some s ∧ s ≠ "" ∧ s ≠ "Not Applicable") ∧
    ∀ v, cleanVinResults l k = some v →
      v ≠ "" ∧ v ≠ "Not Applicable" ∧
        ∃ it ∈ l, it.Variable = k ∧ it.Value = some v := by
  refine ⟨cleanVinResults_eq_lastGoodValue l k, ?_,
    cleanVinResults_some_good l k⟩
  rw [cleanVinResults_isSome_iff]
  constructor
  · rintro ⟨it, hm, hv, hg⟩
    exact ⟨it, hm, hv, (goodValue_iff _).mp hg⟩
  · rintro ⟨it, hm, hv, hg⟩
    exact ⟨it, hm, hv, (goodValue_iff _).mpr hg⟩

/-- C1 witness: the normalizer keeps `Make -> HONDA` of the demo list
verbatim (while its last conjunct is instantiated at that lookup). -/
theorem c1_cleanVinResults_spec_witness :
    cleanVinResults demoSpecs "Make" = some "HONDA" ∧
    ("HONDA" ≠ "" ∧ "HONDA" ≠ "Not Applicable" ∧
      ∃ it ∈ demoSpecs, it.Variable = "Make" ∧ it.Value = some "HONDA") :=
  ⟨by decide,
   (c1_cleanVinResults_spec demoSpecs "Make").2.2 "HONDA" (by decide)⟩

/-- C2: when the decode call succeeds transport-wise but the cleaned spec
lacks "Make", "Model" or "Model Year", the recalls-by-vin handler returns
(without raising) a zero-result record with `recallCount = 0`, an empty
recall list and an explanatory message, and its result does not depend on
the recall oracle at all — the recall query is never issued. -/
theorem c2_recallsByVin_short_circuit (vin : String)
    (d : String → Upstream DecodeBody)
    (r r₂ : RecallQuery → Upstream RecallBody)
    (hok : (d vin.toUpper).ok = true)
    (hmiss :
      cleanVinResults (d vin.toUpper).body.Results "Make" = none ∨
      cleanVinResults (d vin.toUpper).body.Results "Model" = none ∨
      cleanVinResults (d vin.toUpper).body.Results "Model Year" = none) :
    recallsByVin vin d r = Except.ok
      { vin := vin.toUpper
        error := some "Could not decode VIN to get vehicle details"
        vehicle := none
        recallCount := 0
        recalls := [] } ∧
    recallsByVin vin d r = recallsByVin vin d r₂ := by
  have h1 := recallsByVin_missing_eq vin d r hok hmiss
  have h2 := recallsByVin_missing_eq vin d r₂ hok hmiss
  exact ⟨h1, h1.trans h2.symm⟩

/-- C2 witness: a transport-successful decode with an empty attribute list
short-circuits to the zero-result record, identically for a succeeding
and a failing recall oracle. -/
theorem c2_recallsByVin_short_circuit_witness :
    (emptyDecodeApi demoVin.toUpper).ok = true ∧
    (cleanVinResults (emptyDecodeApi demoVin.toUpper).body.Results "Make"
        = none ∨
      cleanVinResults (emptyDecodeApi demoVin.toUpper).body.Results "Model"
        = none ∨
      cleanVinResults
          (emptyDecodeApi demoVin.toUpper).body.Results "Model Year"
        = none) ∧
    (recallsByVin demoVin emptyDecodeApi demoRecallApi = Except.ok
      { vin := demoVin.toUpper
        error := some "Could not decode VIN to get vehicle details"
        vehicle := none
        recallCount := 0
        recalls := [] } ∧
    recallsByVin demoVin emptyDecodeApi demoRecallApi =
      recallsByVin demoVin emptyDecodeApi failRecallApi) :=
  ⟨by decide, by decide,
   c2_recallsByVin_short_circuit demoVin emptyDecodeApi demoRecallApi
     failRecallApi (by decide) (by decide)⟩

/-- C5: when identity resolution succeeded but the phase-2 recall call
gets a non-success response status, the recalls-by-vin handler still
returns successfully, with the decoded vehicle description and an empty
recall list, rather than propagating the failure. -/
theorem c5_recallsByVin_degrades (vin : String)
    (d : String → Upstream DecodeBody)
    (r : RecallQuery → Upstream RecallBody) (mk md yr : String)
    (hok : (d vin.toUpper).ok = true)
    (hmk : cleanVinResults (d vin.toUpper).body.Results "Make" = some mk)
    (hmd : cleanVinResults (d vin.toUpper).body.Results "Model" = some md)
    (hyr : cleanVinResults (d vin.toUpper).body.Results "Model Year"
      = some yr)
    (hfail : (r ⟨mk.toLower, md.toLower, yr⟩).ok = false) :
    recallsByVin vin d r = Except.ok
      { vin := vin.toUpper
        error := none
        vehicle := some (vehicleString yr mk md)
        recallCount := 0
        recalls := [] } := by
  rw [recallsByVin_phase2_eq vin d r mk md yr hok hmk hmd hyr]
  simp [phase2Recalls, hfail]

/-- C5 witness: demo decode resolves 2003 HONDA ACCORD; the failing recall
oracle degrades to an empty list on a successful response. -/
theorem c5_recallsByVin_degrades_witness :
    ((demoDecodeApi demoVin.toUpper).ok = true ∧
      cleanVinResults (demoDecodeApi demoVin.toUpper).body.Results "Make"
        = some "HONDA" ∧
      cleanVinResults (demoDecodeApi demoVin.toUpper).body.Results "Model"
        = some "ACCORD" ∧
      cleanVinResults
          (demoDecodeApi demoVin.toUpper).body.Results "Model Year"
        = some "2003" ∧
      (failRecallApi ⟨"HONDA".toLower, "ACCORD".toLower, "2003"⟩).ok
        = false) ∧
    recallsByVin demoVin demoDecodeApi failRecallApi = Except.ok
      { vin := demoVin.toUpper
        error := none
        vehicle := some (vehicleString "2003" "HONDA" "ACCORD")
        recallCount := 0
        recalls := [] } :=
  ⟨⟨by decide, by decide, by decide, by decide, by decide⟩,
   c5_recallsByVin_degrades demoVin demoDecodeApi failRecallApi
     "HONDA" "ACCORD" "2003" (by decide) (by decide) (by decide)
     (by decide) (by decide)⟩

/-- C9: in the recalls-by-vin handler the returned `recallCount` is the
length of the full upstream results list while the returned `recalls` list
is capped at 20, so an upstream response with more than 20 rows yields a
`recallCount` strictly larger than the number of entries returned. -/
theorem c9_recallCount_before_truncation (vin : String)
    (d : String → Upstream DecodeBody)
    (r : RecallQuery → Upstream RecallBody) (mk md yr : String)
    (rs : List RecallRow)
    (hok : (d vin.toUpper).ok = true)
    (hmk : cleanVinResults (d vin.toUpper).body.Results "Make" = some mk)
    (hmd : cleanVinResults (d vin.toUpper).body.Results "Model" = some md)
    (hyr : cleanVinResults (d vin.toUpper).body.Results "Model Year"
      = some yr)
    (hrok : (r ⟨mk.toLower, md.toLower, yr⟩).ok = true)
    (hrs : (r ⟨mk.toLower, md.toLower, yr⟩).body.results = some rs) :
    ∃ out, recallsByVin vin d r = Except.ok out ∧
      out.recallCount = rs.length ∧
      out.recalls = (rs.take 20).map normalizeRecall ∧
      (20 < rs.length → out.recalls.length < out.recallCount) := by
  have hp : phase2Recalls r ⟨mk.toLower, md.toLower, yr⟩ = rs := by
    simp [phase2Recalls, hrok, hrs]
  refine ⟨_, recallsByVin_phase2_eq vin d r mk md yr hok hmk hmd hyr,
    ?_, ?_, ?_⟩
  · simp [hp]
  · simp [hp]
  · intro h
    simp only [hp, List.length_map, List.length_take]
    omega

/-- C9 witness: with 21 upstream recall rows the count is 21 while only 20
entries are returned. -/
theorem c9_recallCount_before_truncation_witness :
    ((demoDecodeApi demoVin.toUpper).ok = true ∧
      cleanVinResults (demoDecodeApi demoVin.toUpper).body.Results "Make"
        = some "HONDA" ∧
      cleanVinResults (demoDecodeApi demoVin.toUpper).body.Results "Model"
        = some "ACCORD" ∧
      cleanVinResults
          (demoDecodeApi demoVin.toUpper).body.Results "Model Year"
        = some "2003" ∧
      (demoRecallApi ⟨"HONDA".toLower, "ACCORD".toLower, "2003"⟩).ok
        = true ∧
      (demoRecallApi ⟨"HONDA".toLower, "ACCORD".toLower, "2003"⟩).body.results
        = some demoRecallRows) ∧
    ∃ out, recallsByVin demoVin demoDecodeApi demoRecallApi
        = Except.ok out ∧
      out.recallCount = demoRecallRows.length ∧
      out.recalls = (demoRecallRows.take 20).map normalizeRecall ∧
      (20 < demoRecallRows.length →
        out.recalls.length < out.recallCount) :=
  ⟨⟨by decide, by decide, by decide, by decide, by decide, by decide⟩,
   c9_recallCount_before_truncation demoVin demoDecodeApi demoRecallApi
     "HONDA" "ACCORD" "2003" demoRecallRows (by decide) (by decide)
     (by decide) (by decide) (by decide) (by rfl)⟩

/-- C6: recall and complaint result lists are truncated to at most 20
entries after normalization (the returned list equals normalizing every
upstream entry and then taking the first 20, and equals exactly 20 entries
when the upstream list has at least 20), preserving upstream order, and
each complaint summary keeps only its first 500 characters. -/
theorem c6_truncation_after_normalization :
    (∀ (vin : String) (d : String → Upstream DecodeBody)
      (r : RecallQuery → Upstream RecallBody) (mk md yr : String)
      (rs : List RecallRow),
      (d vin.toUpper).ok = true →
      cleanVinResults (d vin.toUpper).body.Results "Make" = some mk →
      cleanVinResults (d vin.toUpper).body.Results "Model" = some md →
      cleanVinResults (d vin.toUpper).body.Results "Model Year"
        = some yr →
      (r ⟨mk.toLower, md.toLower, yr⟩).ok = true →
      (r ⟨mk.toLower, md.toLower, yr⟩).body.results = some rs →
      ∃ out, recallsByVin vin d r = Except.ok out ∧
        out.recalls = (rs.map normalizeRecall).take 20 ∧
        out.recalls.length ≤ 20 ∧
        (20 ≤ rs.length → out.recalls.length = 20)) ∧
    (∀ (make model : String) (year : Int)
      (api : ComplaintsQuery → Upstream ComplaintsBody)
      (cs : List ComplaintRow),
      (api ⟨make, model, year⟩).ok = true →
      (api ⟨make, model, year⟩).body.results = some cs →
      ∃ out, complaintsByVehicle make model year api = Except.ok out ∧
        out.complaints = (cs.map normalizeComplaint).take 20 ∧
        out.complaints.length ≤ 20 ∧
        (20 ≤ cs.length → out.complaints.length = 20) ∧
        ∀ c ∈ cs, (normalizeComplaint c).summary
          = c.summary.map (fun s => s.take 500)) := by
  constructor
  · intro vin d r mk md yr rs hok hmk hmd hyr hrok hrs
    have hp : phase2Recalls r ⟨mk.toLower, md.toLower, yr⟩ = rs := by
      simp [phase2Recalls, hrok, hrs]
    refine ⟨_, recallsByVin_phase2_eq vin d r mk md yr hok hmk hmd hyr,
      ?_, ?_, ?_⟩
    · simp [hp, List.map_take]
    · simp only [hp, List.length_map, List.length_take]
      exact Nat.min_le_left _ _
    · intro h
      simp only [hp, List.length_map, List.length_take]
      omega
  · intro make model year api cs hok hrs
    refine ⟨_, complaintsByVehicle_ok_eq make model year api hok,
      ?_, ?_, ?_, ?_⟩
    · simp [hrs, List.map_take]
    · simp only [hrs, Option.getD_some, List.length_map, List.length_take]
      exact Nat.min_le_left _ _
    · intro h
      simp only [hrs, Option.getD_some, List.length_map, List.length_take]
      omega
    · intro c _
      rfl

/-- C6 witness: 21 demo recall rows and 21 demo complaint rows (each with
a 600-character summary) are truncated to 20 normalized entries. -/
theorem c6_truncation_after_normalization_witness :
    (∃ out, recallsByVin demoVin demoDecodeApi demoRecallApi
        = Except.ok out ∧
      out.recalls = (demoRecallRows.map normalizeRecall).take 20 ∧
      out.recalls.length ≤ 20 ∧
      (20 ≤ demoRecallRows.length → out.recalls.length = 20)) ∧
    (∃ out, complaintsByVehicle "Toyota" "Camry" 2020 demoComplaintsApi
        = Except.ok out ∧
      out.complaints = (demoComplaintRows.map normalizeComplaint).take 20 ∧
      out.complaints.length ≤ 20 ∧
      (20 ≤ demoComplaintRows.length → out.complaints.length = 20) ∧
      ∀ c ∈ demoComplaintRows, (normalizeComplaint c).summary
        = c.summary.map (fun s => s.take 500)) :=
  ⟨c6_truncation_after_normalization.1 demoVin demoDecodeApi demoRecallApi
     "HONDA" "ACCORD" "2003" demoRecallRows (by decide) (by decide)
     (by decide) (by decide) (by decide) (by rfl),
   c6_truncation_after_normalization.2 "Toyota" "Camry" 2020
     demoComplaintsApi demoComplaintRows (by decide) (by rfl)⟩

/-- C7: for every transport-successful decode response the decode-vin
handler returns a result (never raises) whose `isValid` flag is true iff
the cleaned spec maps "Error Code" to "0", and whose `errorMessage` is
the cleaned spec's "Error Text" entry. -/
theorem c7_decodeVin_validity (vin : String)
    (d : String → Upstream DecodeBody)
    (hok : (d vin.toUpper).ok = true) :
    ∃ out, decodeVin vin d = Except.ok out ∧
      (out.isValid = true ↔
        cleanVinResults (d vin.toUpper).body.Results "Error Code"
          = some "0") ∧
      out.errorMessage
        = cleanVinResults (d vin.toUpper).body.Results "Error Text" := by
  simp only [decodeVin, fetchJSON_ok (d vin.toUpper) hok]
  exact ⟨_, rfl, beq_iff_eq, rfl⟩

/-- C7 witness: the demo decode reports error code 0, so the output is
valid and carries the upstream error text as data. -/
theorem c7_decodeVin_validity_witness :
    (demoDecodeApi demoVin.toUpper).ok = true ∧
    ∃ out, decodeVin demoVin demoDecodeApi = Except.ok out ∧
      (out.isValid = true ↔
        cleanVinResults
            (demoDecodeApi demoVin.toUpper).body.Results "Error Code"
          = some "0") ∧
      out.errorMessage
        = cleanVinResults
            (demoDecodeApi demoVin.toUpper).body.Results "Error Text" :=
  ⟨by decide, c7_decodeVin_validity demoVin demoDecodeApi (by decide)⟩

theorem recallsByVin_recall_dependency (vin : String)
    (d : String → Upstream DecodeBody)
    (r r₂ : RecallQuery → Upstream RecallBody) (mk md yr : String)
    (hok : (d vin.toUpper).ok = true)
    (hmk : cleanVinResults (d vin.toUpper).body.Results "Make" = some mk)
    (hmd : cleanVinResults (d vin.toUpper).body.Results "Model" = some md)
    (hyr : cleanVinResults (d vin.toUpper).body.Results "Model Year"
      = some yr)
    (h : r ⟨mk.toLower, md.toLower, yr⟩ = r₂ ⟨mk.toLower, md.toLower, yr⟩) :
    recallsByVin vin d r = recallsByVin vin d r₂ := by
  rw [recallsByVin_phase2_eq vin d r mk md yr hok hmk hmd hyr,
    recallsByVin_phase2_eq vin d r₂ mk md yr hok hmk hmd hyr]
  simp [phase2Recalls, h]

/-- C3: for a list of 2 to 5 identification numbers whose decodes all
succeed transport-wise, compare returns the rows in input order
(`result = input.map rowOf`); a subject whose auxiliary recall lookup
fails gets `recallCount = 0`, and each subject's row depends on the recall
oracle only at that subject's own upper-cased identification number, so a
failure for one subject leaves every other row exactly as it would have
been. -/
theorem c3_compare_order_and_isolation (vins : List String)
    (d : String → Upstream DecodeBody) (r : String → Upstream RecallBody)
    (hlen : 2 ≤ vins.length ∧ vins.length ≤ 5)
    (hdec : ∀ v ∈ vins, (d v.toUpper).ok = true) :
    compareVins vins d r = Except.ok (vins.map (compareRowPure d r)) ∧
    (∀ v, (r v.toUpper).ok = false →
      (compareRowPure d r v).recallCount = 0) ∧
    (∀ (r₂ : String → Upstream RecallBody) v,
      r₂ v.toUpper = r v.toUpper →
      compareRowPure d r₂ v = compareRowPure d r v) := by
  refine ⟨compareVins_all_ok vins d r hdec, ?_, ?_⟩
  · intro v hv
    simp [compareRowPure, hv]
  · intro r₂ v h
    simp [compareRowPure, h]

/-- C3 witness: two demo identification numbers with all-failing auxiliary
recall lookups produce the two rows in order with recall count 0. -/
theorem c3_compare_order_and_isolation_witness :
    (2 ≤ ([demoVin, demoVin2] : List String).length ∧
      ([demoVin, demoVin2] : List String).length ≤ 5) ∧
    (∀ v ∈ ([demoVin, demoVin2] : List String),
      (demoDecodeApi v.toUpper).ok = true) ∧
    (compareVins [demoVin, demoVin2] demoDecodeApi failRecallVinApi
        = Except.ok ([demoVin, demoVin2].map
            (compareRowPure demoDecodeApi failRecallVinApi)) ∧
      (∀ v, (failRecallVinApi v.toUpper).ok = false →
        (compareRowPure demoDecodeApi failRecallVinApi v).recallCount
          = 0) ∧
      (∀ (r₂ : String → Upstream RecallBody) v,
        r₂ v.toUpper = failRecallVinApi v.toUpper →
        compareRowPure demoDecodeApi r₂ v
          = compareRowPure demoDecodeApi failRecallVinApi v)) :=
  ⟨⟨by decide, by decide⟩, by decide,
   c3_compare_order_and_isolation [demoVin, demoVin2] demoDecodeApi
     failRecallVinApi ⟨by decide, by decide⟩ (by decide)⟩

/-- C4: if any subject's identity decode gets a non-success upstream
response, the whole compare operation fails with an error and returns no
rows. -/
theorem c4_compare_decode_failure_fails (vins : List String)
    (d : String → Upstream DecodeBody) (r : String → Upstream RecallBody)
    (h : ∃ v ∈ vins, (d v.toUpper).ok = false) :
    ∃ e, compareVins vins d r = Except.error e := by
  induction vins with
  | nil => simp at h
  | cons v t ih =>
    obtain ⟨u, hu, hfail⟩ := h
    rcases List.mem_cons.mp hu with rfl | hmem
    · obtain ⟨e, he⟩ := compareRow_err d r u hfail
      exact ⟨e, by rw [compareVins, he]⟩
    · by_cases hv : (d v.toUpper).ok = true
      · obtain ⟨e, he⟩ := ih ⟨u, hmem, hfail⟩
        refine ⟨e, ?_⟩
        rw [compareVins, compareRow_ok_eq d r v hv, he]
      · have hv2 : (d v.toUpper).ok = false := by
          cases hvv : (d v.toUpper).ok
          · rfl
          · exact absurd hvv hv
        obtain ⟨e, he⟩ := compareRow_err d r v hv2
        exact ⟨e, by rw [compareVins, he]⟩

/-- C4 witness: two subjects whose decode oracle fails transport-wise
make the whole compare fail. -/
theorem c4_compare_decode_failure_fails_witness :
    (∃ v ∈ ([demoVin, demoVin2] : List String),
      (failDecodeApi v.toUpper).ok = false) ∧
    ∃ e, compareVins [demoVin, demoVin2] failDecodeApi demoRecallVinApi
      = Except.error e :=
  ⟨by decide,
   c4_compare_decode_failure_fails [demoVin, demoVin2] failDecodeApi
     demoRecallVinApi (by decide)⟩

/-- C8: every operation that takes an identification number consults its
upstream oracles only at the upper-cased number; the recalls-by-vin
handler consults the recall endpoint only at the lower-cased make/model
with the raw model-year string (for the demo decode of Make HONDA, Model
ACCORD, Model Year 2003 this is exactly the query (honda, accord, 2003));
and the complaints and models handlers pass make/model through as
given. -/
theorem c8_case_normalization :
    (∀ (vin : String) (d d₂ : String → Upstream DecodeBody),
      d vin.toUpper = d₂ vin.toUpper →
      decodeVin vin d = decodeVin vin d₂) ∧
    (∀ (vin : String) (d d₂ : String → Upstream DecodeBody)
      (r : RecallQuery → Upstream RecallBody),
      d vin.toUpper = d₂ vin.toUpper →
      recallsByVin vin d r = recallsByVin vin d₂ r) ∧
    (∀ (vin : String) (d d₂ : String → Upstream DecodeBody)
      (r r₂ : String → Upstream RecallBody),
      d vin.toUpper = d₂ vin.toUpper → r vin.toUpper = r₂ vin.toUpper →
      compareRow d r vin = compareRow d₂ r₂ vin) ∧
    (∀ (vin : String) (d : String → Upstream DecodeBody)
      (r r₂ : RecallQuery → Upstream RecallBody) (mk md yr : String),
      (d vin.toUpper).ok = true →
      cleanVinResults (d vin.toUpper).body.Results "Make" = some mk →
      cleanVinResults (d vin.toUpper).body.Results "Model" = some md →
      cleanVinResults (d vin.toUpper).body.Results "Model Year"
        = some yr →
      r ⟨mk.toLower, md.toLower, yr⟩ = r₂ ⟨mk.toLower, md.toLower, yr⟩ →
      recallsByVin vin d r = recallsByVin vin d r₂) ∧
    (∀ (r r₂ : RecallQuery → Upstream RecallBody),
      r ⟨"honda", "accord", "2003"⟩ = r₂ ⟨"honda", "accord", "2003"⟩ →
      recallsByVin demoVin demoDecodeApi r
        = recallsByVin demoVin demoDecodeApi r₂) ∧
    (∀ (make model : String) (year : Int)
      (api api₂ : ComplaintsQuery → Upstream ComplaintsBody),
      api ⟨make, model, year⟩ = api₂ ⟨make, model, year⟩ →
      complaintsByVehicle make model year api
        = complaintsByVehicle make model year api₂) ∧
    (∀ (make : String) (api api₂ : String → Upstream ModelsBody),
      api make = api₂ make →
      modelsForMake make api = modelsForMake make api₂) := by
  refine ⟨?_, ?_, ?_, ?_, ?_, ?_, ?_⟩
  · intro vin d d₂ h
    simp only [decodeVin, h]
  · intro vin d d₂ r h
    simp only [recallsByVin, h]
  · intro vin d d₂ r r₂ h h₂
    simp only [compareRow, h, h₂]
  · intro vin d r r₂ mk md yr hok hmk hmd hyr h
    exact recallsByVin_recall_dependency vin d r r₂ mk md yr
      hok hmk hmd hyr h
  · intro r r₂ h
    refine recallsByVin_recall_dependency demoVin demoDecodeApi r r₂
      "HONDA" "ACCORD" "2003" (by decide) (by decide) (by decide)
      (by decide) ?_
    have e1 : ("HONDA" : String).toLower = "honda" := by
      simp only [String.toLower, String.map_eq]
      decide
    have e2 : ("ACCORD" : String).toLower = "accord" := by
      simp only [String.toLower, String.map_eq]
      decide
    rw [e1, e2]
    exact h
  · intro make model year api api₂ h
    simp only [complaintsByVehicle, h]
  · intro make api api₂ h
    simp only [modelsForMake, h]

/-- C8 witness: the recalls-by-vin result for the demo decode is the same
for the demo recall oracle and for an oracle that agrees with it only at
the query (honda, accord, 2003). -/
theorem c8_case_normalization_witness :
    demoRecallApi ⟨"honda", "accord", "2003"⟩
      = demoRecallApiAlt ⟨"honda", "accord", "2003"⟩ ∧
    recallsByVin demoVin demoDecodeApi demoRecallApi
      = recallsByVin demoVin demoDecodeApi demoRecallApiAlt :=
  ⟨by decide,
   c8_case_normalization.2.2.2.2.1 demoRecallApi demoRecallApiAlt
     (by decide)⟩

/-- C10: compare performs no identity-resolution check: a subject whose
decode succeeds transport-wise but whose cleaned spec lacks Make, Model or
Model Year still gets a row (its make/model/year fields are exactly the
possibly-missing cleaned values) and its auxiliary recall lookup is still
consulted (the row's recallCount reflects the recall oracle), instead of
short-circuiting or raising as recalls-by-vin does. -/
theorem c10_compare_no_identity_check (vins : List String)
    (d : String → Upstream DecodeBody) (r : String → Upstream RecallBody)
    (v : String) (hmem : v ∈ vins)
    (hdec : ∀ u ∈ vins, (d u.toUpper).ok = true)
    (hmiss :
      cleanVinResults (d v.toUpper).body.Results "Make" = none ∨
      cleanVinResults (d v.toUpper).body.Results "Model" = none ∨
      cleanVinResults (d v.toUpper).body.Results "Model Year" = none) :
    compareVins vins d r = Except.ok (vins.map (compareRowPure d r)) ∧
    (vins.map (compareRowPure d r)).length = vins.length ∧
    (compareRowPure d r v).make
      = cleanVinResults (d v.toUpper).body.Results "Make" ∧
    (compareRowPure d r v).model
      = cleanVinResults (d v.toUpper).body.Results "Model" ∧
    (compareRowPure d r v).year
      = cleanVinResults (d v.toUpper).body.Results "Model Year" ∧
    ((r v.toUpper).ok = true →
      (compareRowPure d r v).recallCount
        = jsLen (r v.toUpper).body.results) ∧
    ((r v.toUpper).ok = false →
      (compareRowPure d r v).recallCount = 0) := by
  refine ⟨compareVins_all_ok vins d r hdec, by simp, rfl, rfl, rfl,
    ?_, ?_⟩
  · intro h
    simp [compareRowPure, h]
  · intro h
    simp [compareRowPure, h]

/-- C10 witness: a subject decoding to an empty attribute list still gets
a row, with its recall count taken from the succeeding auxiliary
lookup. -/
theorem c10_compare_no_identity_check_witness :
    (demoVin ∈ ([demoVin, demoVin2] : List String)) ∧
    (∀ u ∈ ([demoVin, demoVin2] : List String),
      (emptyDecodeApi u.toUpper).ok = true) ∧
    (cleanVinResults
        (emptyDecodeApi demoVin.toUpper).body.Results "Make" = none ∨
      cleanVinResults
        (emptyDecodeApi demoVin.toUpper).body.Results "Model" = none ∨
      cleanVinResults
        (emptyDecodeApi demoVin.toUpper).body.Results "Model Year"
        = none) ∧
    (compareVins [demoVin, demoVin2] emptyDecodeApi demoRecallVinApi
        = Except.ok ([demoVin, demoVin2].map
            (compareRowPure emptyDecodeApi demoRecallVinApi)) ∧
      ([demoVin, demoVin2].map
          (compareRowPure emptyDecodeApi demoRecallVinApi)).length
        = ([demoVin, demoVin2] : List String).length ∧
      (compareRowPure emptyDecodeApi demoRecallVinApi demoVin).make
        = cleanVinResults
            (emptyDecodeApi demoVin.toUpper).body.Results "Make" ∧
      (compareRowPure emptyDecodeApi demoRecallVinApi demoVin).model
        = cleanVinResults
            (emptyDecodeApi demoVin.toUpper).body.Results "Model" ∧
      (compareRowPure emptyDecodeApi demoRecallVinApi demoVin).year
        = cleanVinResults
            (emptyDecodeApi demoVin.toUpper).body.Results "Model Year" ∧
      ((demoRecallVinApi demoVin.toUpper).ok = true →
        (compareRowPure emptyDecodeApi demoRecallVinApi
            demoVin).recallCount
          = jsLen (demoRecallVinApi demoVin.toUpper).body.results) ∧
      ((demoRecallVinApi demoVin.toUpper).ok = false →
        (compareRowPure emptyDecodeApi demoRecallVinApi
            demoVin).recallCount = 0)) :=
  ⟨by decide, by decide, by decide,
   c10_compare_no_identity_check [demoVin, demoVin2] emptyDecodeApi
     demoRecallVinApi demoVin (by decide) (by decide) (by decide)⟩

end VehicleIntel
